import Mathlib

/-!
Shallow embedding of the voice-agent call relay engine.

Source files embedded:
- `src/app.py` — the per-call relay: `twilio_to_openai`, `openai_to_twilio`,
  `execute_tool`, `cleanup_session`, and the `media_stream_handler` finally block.
- `src/services/openai_service.py` — `OpenAIService.send_audio`,
  `OpenAIService.send_function_result` (modelled as the sequence of wire
  commands they emit).
- `src/services/database_service.py` — `DatabaseService.get_order_details`
  and `DatabaseService.check_inventory`; the remaining persistence calls
  (`create_transfer_request`, `create_support_ticket`, `create_call_record`,
  `end_call_record`, `log_conversation`) are external collaborators whose
  outcomes are supplied by an oracle / recorded as an observable trace.

Conventions:
- Python dict values appearing in tool payloads are modelled by `JVal`.
- `dict.get(k)` with its `None` default is `pyGet`; `dict.get(k, d)` is `pyGetD`.
- Python truthiness of an optional string variable (`if call_sid:`) is `truthy`.
- A telephony message on which `json.loads` (or the subsequent field access)
  raises is the `TwilioFrame.malformed` constructor; the pump-level
  `except Exception` handler of `twilio_to_openai` is the `PumpEnd.errored`
  outcome.
- Network sends never fail in the model (transport faults are outside the
  claims settled here); `openai_ws` is always established before either pump
  runs (`app.py` line 179), so the `and openai_ws` conjunct of line 229 is
  always true and is noted where it occurs.
-/

namespace VoiceAgent

/-- JSON-like values, for tool-call arguments and result payloads
(the Python dict/list/str/int/bool/None universe used by `execute_tool`
and `DatabaseService`). -/
inductive JVal where
  | s (v : String)
  | n (v : Int)
  | b (v : Bool)
  | null
  | arr (vs : List JVal)
  | obj (fields : List (String × JVal))

/-- A Python dict with string keys, as an association list (tool result
payloads and parsed tool arguments). -/
abbrev Payload := List (String × JVal)

/-- Python `d.get(k)`: the value at `k`, or `None` when absent. -/
def pyGet (m : Payload) (k : String) : JVal :=
  match m.lookup k with
  | some v => v
  | none => JVal.null

/-- Python `d.get(k, dflt)`. -/
def pyGetD (m : Payload) (k : String) (dflt : JVal) : JVal :=
  match m.lookup k with
  | some v => v
  | none => dflt

/-- Python truthiness of a `JVal` (used for `if pincode`). -/
def jvalTruthy : JVal → Bool
  | .s v => v != ""
  | .n v => v != 0
  | .b v => v
  | .null => false
  | .arr vs => !vs.isEmpty
  | .obj fs => !fs.isEmpty

/-- Python `str()` rendering as interpolated into the `create_ticket`
message f-string; only the string case is exercised by the code
(`ticket_id` is a string), the rest approximate `str()`. -/
def pyStr : JVal → String
  | .s v => v
  | .n v => toString v
  | .b true => "True"
  | .b false => "False"
  | .null => "None"
  | .arr _ => "[...]"
  | .obj _ => "{...}"

/-- Python truthiness of an optional string variable, e.g. `if call_sid:`
(`None` and the empty string are falsy). -/
def truthy : Option String → Bool
  | some s => s != ""
  | none => false

/-- Outcomes of the external persistence collaborator
(`DatabaseService`) as consumed by `execute_tool`.
`orderFails` / `inventoryFails`: whether the try body of
`get_order_details` / `check_inventory` raises (both catch internally).
`create_transfer_request` / `create_support_ticket` re-raise on failure,
so their outcomes are `Except` with the exception text. -/
structure DbOracle where
  orderFails : Bool
  createTransferRequest : Option String → JVal → JVal → JVal → Except String Payload
  inventoryFails : Bool
  createSupportTicket : Option String → JVal → JVal → JVal → JVal → Except String Payload

/-- Mock order record built by `DatabaseService.get_order_details`
(database_service.py lines 190-204). -/
def mock_order (order_id : JVal) : Payload :=
  [("order_id", order_id),
   ("status", JVal.s "Delivered"),
   ("order_date", JVal.s "2025-10-10"),
   ("delivery_date", JVal.s "2025-10-15"),
   ("items", JVal.arr
     [JVal.obj [("name", JVal.s "Product A"), ("quantity", JVal.n 1), ("price", JVal.s "₹1,200")],
      JVal.obj [("name", JVal.s "Product B"), ("quantity", JVal.n 2), ("price", JVal.s "₹650")]]),
   ("subtotal", JVal.s "₹2,500"),
   ("shipping", JVal.s "₹0"),
   ("total", JVal.s "₹2,500"),
   ("payment_method", JVal.s "Credit Card"),
   ("shipping_address", JVal.s "123 Main St, Mumbai, 400001")]

/-- Embedding of `DatabaseService.get_order_details`
(database_service.py lines 172-213): returns the fetched order record, or,
when the try body raises, the `Order not found` error payload carrying the
requested order id. -/
def get_order_details (fails : Bool) (order_id : JVal) : Payload :=
  if fails then
    [("error", JVal.s "Order not found"), ("order_id", order_id)]
  else
    mock_order order_id

/-- Embedding of `DatabaseService.check_inventory`
(database_service.py lines 215-249). -/
def check_inventory (fails : Bool) (product_name : JVal) (pincode : JVal) : Payload :=
  if fails then
    [("product", product_name),
     ("available", JVal.b false),
     ("error", JVal.s "Could not check availability")]
  else
    [("product", product_name),
     ("available", JVal.b true),
     ("stock_count", JVal.n 45),
     ("delivery_estimate",
       JVal.s (if jvalTruthy pincode then "2-3 business days" else "3-5 business days")),
     ("price", JVal.s "₹1,299"),
     ("pincode_serviceable", if jvalTruthy pincode then JVal.b true else JVal.null)]

/-- Generic error payload returned by the `except Exception` handler of
`execute_tool` (app.py lines 491-498), with `str(e)` as the error text. -/
def toolErrorPayload (e : String) : Payload :=
  [("error", JVal.s e),
   ("message", JVal.s "I encountered an error while processing your request. Let me try another way to help you.")]

/-- Embedding of `execute_tool` (app.py lines 405-498): maps a
model-requested function name and parsed arguments to a result payload.
Collaborator outcomes come from the oracle; all collaborator exceptions are
caught by the dispatcher and turned into `toolErrorPayload`, so the
function is total (no exception escapes). -/
def execute_tool (db : DbOracle) (function_name : String) (arguments : Payload)
    (call_sid : Option String) : Payload :=
  if function_name = "lookup_order" then
    let order_id := pyGet arguments "order_id"
    get_order_details db.orderFails order_id
  else if function_name = "transfer_to_human" then
    let reason := pyGet arguments "reason"
    let context := pyGet arguments "customer_context"
    let priority := pyGetD arguments "priority" (JVal.s "medium")
    match db.createTransferRequest call_sid reason context priority with
    | Except.ok transfer_result =>
        [("status", JVal.s "transfer_initiated"),
         ("message", JVal.s "Bilkul, main aapko ek moment mein humare team member se connect kar deta hoon."),
         ("ticket_id", pyGet transfer_result "ticket_id"),
         ("estimated_wait_time", JVal.s "2-3 minutes")]
    | Except.error e => toolErrorPayload e
  else if function_name = "check_product_availability" then
    let product_name := pyGet arguments "product_name"
    let pincode := pyGet arguments "pincode"
    check_inventory db.inventoryFails product_name pincode
  else if function_name = "create_ticket" then
    let issue_type := pyGet arguments "issue_type"
    let description := pyGet arguments "description"
    let customer_phone := pyGet arguments "customer_phone"
    let priority := pyGetD arguments "priority" (JVal.s "medium")
    match db.createSupportTicket call_sid issue_type description customer_phone priority with
    | Except.ok ticket =>
        [("status", JVal.s "ticket_created"),
         ("ticket_id", pyGet ticket "ticket_id"),
         ("message", JVal.s ("Maine aapke liye ticket create kar diya hai. Aapka ticket number hai "
            ++ pyStr (pyGet ticket "ticket_id")
            ++ ". Humari team 24 hours mein aapse contact karegi."))]
    | Except.error e => toolErrorPayload e
  else
    [("error", JVal.s ("Unknown function: " ++ function_name)),
     ("message", JVal.s "I\x27m sorry, I couldn\x27t process that request.")]

/-- One entry of `active_sessions` (app.py lines 210-217); the websocket
handle and `start_time` timestamp are omitted (the former is opaque, the
latter feeds only the cost log line in `cleanup_session`). Field values are
`start_data.get(...)`, hence optional. -/
structure SessionData where
  call_sid : Option String
  stream_sid : Option String
  openai_session_id : String
  from_number : String
deriving DecidableEq

/-- The process-wide `active_sessions` dict, as an association list keyed
by the (optional) call sid. -/
abbrev Registry := List (Option String × SessionData)

/-- Python dict assignment `d[k] = v`: replaces the entry in place when the
key is present, appends otherwise. -/
def dictInsert (k : Option String) (v : SessionData) : Registry → Registry
  | [] => [(k, v)]
  | kv :: rest => if kv.1 = k then (k, v) :: rest else kv :: dictInsert k v rest

/-- Python `k in d` / `d[k]` read access. -/
def dictLookup (k : Option String) : Registry → Option SessionData
  | [] => none
  | kv :: rest => if kv.1 = k then some kv.2 else dictLookup k rest

/-- Python `del d[k]`. -/
def dictRemove (k : Option String) : Registry → Registry
  | [] => []
  | kv :: rest => if kv.1 = k then dictRemove k rest else kv :: dictRemove k rest

/-- Inbound telephony frames after decoding (app.py lines 192-247).
`malformed` stands for a message on which `json.loads` (or the field access
on a non-object result) raises; `unrecognizedEvent` is a decoded frame
whose `event` matches no handled kind (ignored by the dispatch chain). -/
inductive TwilioFrame where
  | start (callSid streamSid : Option String) (fromNumber : String)
  | media (payload : Option String)
  | mark (name : String)
  | stop
  | unrecognizedEvent (event : String)
  | malformed
deriving DecidableEq

/-- Wire commands sent to the model transport, as emitted by
`OpenAIService` (`send_audio` sends `input_audio_buffer.append`;
`send_function_result` sends `conversation.item.create` with the
`function_call_output` item then `response.create`). The
`conversationItemCreate` payload is the result dict before
`json.dumps` serialization. -/
inductive ModelCmd where
  | sessionUpdate
  | responseCreate
  | inputAudioAppend (audio : String)
  | conversationItemCreate (call_id : String) (output : Payload)

/-- One content fragment of a conversation item; absent fields default to
the empty string, mirroring `content[0].get("type")`,
`content[0].get("transcript", "")` and `content[0].get("text", "")`
(app.py line 302). -/
structure ContentPart where
  ctype : String
  transcript : String
  text : String
deriving DecidableEq

/-- A conversation item as consumed by the `conversation.item.created`
branch (app.py lines 290-304): `item.get("type")`, `item.get("role", "")`,
`item.get("content", [])`. -/
structure ConvItem where
  itemType : String
  role : String
  content : List ContentPart
deriving DecidableEq

/-- Calls made to the persistence collaborator by the two pumps. -/
inductive DbCall where
  | createCallRecord (call_sid : Option String)
  | endCallRecord (call_sid : Option String)
  | logConversation (call_sid : Option String) (item : ConvItem)

/-- How the telephony-to-model pump terminated.
`exhausted`: the inbound stream ended or disconnected (the
`WebSocketDisconnect` handler, app.py lines 249-253);
`stopped`: a `stop` frame hit the `break` (line 247);
`errored`: an exception escaped the loop body and was caught by the
pump-level `except Exception` (lines 255-260). -/
inductive PumpEnd where
  | exhausted
  | stopped
  | errored
deriving DecidableEq

/-- The closure variables of `media_stream_handler` written by the
telephony pump, plus the global registry. -/
structure TwilioState where
  call_sid : Option String
  stream_sid : Option String
  hasCallLogger : Bool
  registry : Registry

/-- Result of running the telephony-to-model pump over a frame sequence:
final shared state, model commands sent (in order), persistence calls made
(in order), and the termination kind. -/
structure TwilioRun where
  state : TwilioState
  modelOut : List ModelCmd
  dbCalls : List DbCall
  ended : PumpEnd

/-- Embedding of the `twilio_to_openai` pump (app.py lines 186-260) as a
fold over the decoded inbound frame sequence.
On `start`: sets `call_sid`/`stream_sid`/`call_logger`, assigns
`active_sessions[call_sid]`, and calls `create_call_record`.
On `media`: forwards a present, non-empty payload via
`OpenAIService.send_audio` (`if audio_payload and openai_ws:` — the
`openai_ws` conjunct is always true here, see the file header).
On `stop`: calls `end_call_record` when `call_sid` is truthy and breaks.
On `malformed`: the raised decode error is caught by the pump-level
handler and the pump returns. -/
def twilio_to_openai (session_id : String) (st : TwilioState) :
    List TwilioFrame → TwilioRun
  | [] => ⟨st, [], [], PumpEnd.exhausted⟩
  | f :: rest =>
    match f with
    | TwilioFrame.start callSid streamSid fromNumber =>
        let st2 : TwilioState :=
          { call_sid := callSid
            stream_sid := streamSid
            hasCallLogger := true
            registry := dictInsert callSid
              ⟨callSid, streamSid, session_id, fromNumber⟩ st.registry }
        let r := twilio_to_openai session_id st2 rest
        ⟨r.state, r.modelOut, DbCall.createCallRecord callSid :: r.dbCalls, r.ended⟩
    | TwilioFrame.media payload =>
        let r := twilio_to_openai session_id st rest
        match payload with
        | some p =>
            if p ≠ "" then
              ⟨r.state, ModelCmd.inputAudioAppend p :: r.modelOut, r.dbCalls, r.ended⟩
            else r
        | none => r
    | TwilioFrame.mark _ => twilio_to_openai session_id st rest
    | TwilioFrame.stop =>
        ⟨st, [],
         if truthy st.call_sid then [DbCall.endCallRecord st.call_sid] else [],
         PumpEnd.stopped⟩
    | TwilioFrame.unrecognizedEvent _ => twilio_to_openai session_id st rest
    | TwilioFrame.malformed => ⟨st, [], [], PumpEnd.errored⟩

/-- Embedding of `cleanup_session` (app.py lines 501-526): when the id is
registered, compute the accounting metrics (observable only as a log line,
omitted) and delete the entry; otherwise a no-op. -/
def cleanup_session (call_sid : Option String) (reg : Registry) : Registry :=
  if (dictLookup call_sid reg).isSome then dictRemove call_sid reg else reg

/-- Embedding of the `finally` block of `media_stream_handler`
(app.py lines 394-402): `cleanup_session` is invoked exactly when the
`call_sid` closure variable is truthy. Returns the resulting registry and
the number of `cleanup_session` invocations. -/
def handlerFinally (call_sid : Option String) (reg : Registry) : Registry × Nat :=
  if truthy call_sid then (cleanup_session call_sid reg, 1) else (reg, 0)

/-- Snapshot of the closure variables of `media_stream_handler` that the
model-to-telephony pump reads and the telephony pump writes concurrently
(`call_sid`, `stream_sid`, `call_logger`). Each model event is processed
against the snapshot current at that moment, so a run of the model pump is
driven by a list of (snapshot, event) pairs, covering every interleaving
of the two pumps. -/
structure Shared where
  call_sid : Option String
  stream_sid : Option String
  hasCallLogger : Bool
deriving DecidableEq

/-- Outbound telephony `media` frame (app.py lines 276-282). -/
structure TwilioMediaOut where
  streamSid : String
  payload : String
deriving DecidableEq

/-- Observable outputs of (a step of) the model-to-telephony pump:
outbound telephony frames, commands sent to the model, persistence calls,
and transcript log lines. -/
structure OpenAIRun where
  twilioOut : List TwilioMediaOut
  modelOut : List ModelCmd
  dbCalls : List DbCall
  transcriptLogs : List String

/-- Concatenation of pump outputs. -/
def OpenAIRun.append (a b : OpenAIRun) : OpenAIRun :=
  ⟨a.twilioOut ++ b.twilioOut, a.modelOut ++ b.modelOut,
   a.dbCalls ++ b.dbCalls, a.transcriptLogs ++ b.transcriptLogs⟩

/-- Outcome of `json.loads(arguments_str)` on a tool call
(app.py line 316): either the raised `JSONDecodeError` or the parsed
argument mapping. -/
inductive RawArgs where
  | malformed (raw : String)
  | parsed (args : Payload)

/-- Incoming model events, by the `type` values dispatched in
`openai_to_twilio` (app.py lines 267-369); `unrecognized` is any other
`type` (ignored). -/
inductive OpenAIEvent where
  | responseAudioDelta (delta : String)
  | responseAudioDone
  | conversationItemCreated (item : ConvItem)
  | functionCallArgumentsDone (name : String) (call_id : String) (arguments : RawArgs)
  | responseDone
  | errorEvent
  | sessionUpdated
  | unrecognized

/-- Embedding of `OpenAIService.send_function_result`
(openai_service.py lines 121-152): the `conversation.item.create` command
carrying the `function_call_output` keyed by `call_id`, immediately
followed by the `response.create` resume directive. -/
def send_function_result (call_id : String) (result : Payload) : List ModelCmd :=
  [ModelCmd.conversationItemCreate call_id result, ModelCmd.responseCreate]

/-- Transcript line computed by the `conversation.item.created` branch
(app.py lines 297-304): only for `message` items with a non-empty content
list whose extracted text is non-empty; `none` means no line is logged. -/
def transcriptLine (item : ConvItem) : Option String :=
  if item.itemType = "message" then
    match item.content with
    | [] => none
    | c :: _ =>
        let text := if c.ctype = "audio" then c.transcript else c.text
        if text ≠ "" then some (item.role.toUpper ++ ": " ++ text.take 100) else none
  else none

/-- Embedding of one iteration of the `openai_to_twilio` pump
(app.py lines 262-369), processing a single model event against the
current snapshot of the shared closure variables.
`response.audio.delta`: forwarded as an outbound media frame only when
`if stream_sid and audio_delta:` holds.
`conversation.item.created`: persisted via `log_conversation` when
`call_sid` is truthy; transcript line logged per `transcriptLine` when the
call logger exists.
`response.function_call_arguments.done`: parsed arguments are dispatched
through `execute_tool` and the result (or the `Invalid arguments` payload
on a `JSONDecodeError`) is sent back via `send_function_result`.
All other handled kinds only log; unrecognized kinds are ignored. -/
def handle_model_event (db : DbOracle) (sh : Shared) : OpenAIEvent → OpenAIRun
  | OpenAIEvent.responseAudioDelta delta =>
      match sh.stream_sid with
      | some s =>
          if s ≠ "" ∧ delta ≠ "" then ⟨[⟨s, delta⟩], [], [], []⟩
          else ⟨[], [], [], []⟩
      | none => ⟨[], [], [], []⟩
  | OpenAIEvent.responseAudioDone => ⟨[], [], [], []⟩
  | OpenAIEvent.conversationItemCreated item =>
      ⟨[], [],
       if truthy sh.call_sid then [DbCall.logConversation sh.call_sid item] else [],
       if sh.hasCallLogger then (transcriptLine item).toList else []⟩
  | OpenAIEvent.functionCallArgumentsDone name call_id args =>
      match args with
      | RawArgs.parsed a =>
          ⟨[], send_function_result call_id (execute_tool db name a sh.call_sid), [], []⟩
      | RawArgs.malformed _ =>
          ⟨[], send_function_result call_id [("error", JVal.s "Invalid arguments")], [], []⟩
  | OpenAIEvent.responseDone => ⟨[], [], [], []⟩
  | OpenAIEvent.errorEvent => ⟨[], [], [], []⟩
  | OpenAIEvent.sessionUpdated => ⟨[], [], [], []⟩
  | OpenAIEvent.unrecognized => ⟨[], [], [], []⟩

/-- Embedding of the `openai_to_twilio` pump as a fold over the incoming
model event sequence, each event paired with the snapshot of the shared
closure variables at the moment it is processed. -/
def openai_to_twilio (db : DbOracle) : List (Shared × OpenAIEvent) → OpenAIRun
  | [] => ⟨[], [], [], []⟩
  | (sh, ev) :: rest =>
      (handle_model_event db sh ev).append (openai_to_twilio db rest)

/-- Result of a whole `media_stream_handler` invocation. -/
structure HandlerRun where
  registry : Registry
  cleanupCalls : Nat
  twilioRun : TwilioRun
  openaiRun : OpenAIRun

/-- Embedding of `media_stream_handler` (app.py lines 162-402): run both
pumps (`asyncio.gather` with `return_exceptions=True` waits for both
regardless of errors), then run the `finally` block against the final
values of the shared closure variables. `reg0` is the content of the
process-wide `active_sessions` dict when the handler starts. -/
def media_stream_handler (session_id : String) (reg0 : Registry)
    (frames : List TwilioFrame) (db : DbOracle)
    (events : List (Shared × OpenAIEvent)) : HandlerRun :=
  let tw := twilio_to_openai session_id ⟨none, none, false, reg0⟩ frames
  let oa := openai_to_twilio db events
  let fin := handlerFinally tw.state.call_sid tw.state.registry
  ⟨fin.1, fin.2, tw, oa⟩

/-- Payloads carried by `media` frames arriving before the first `stop`
frame (the scope quantified over by the media-forwarding property). -/
def mediaPayloadsBeforeStop : List TwilioFrame → List String
  | [] => []
  | TwilioFrame.stop :: _ => []
  | TwilioFrame.media (some p) :: rest => p :: mediaPayloadsBeforeStop rest
  | TwilioFrame.media none :: rest => mediaPayloadsBeforeStop rest
  | TwilioFrame.start _ _ _ :: rest => mediaPayloadsBeforeStop rest
  | TwilioFrame.mark _ :: rest => mediaPayloadsBeforeStop rest
  | TwilioFrame.unrecognizedEvent _ :: rest => mediaPayloadsBeforeStop rest
  | TwilioFrame.malformed :: rest => mediaPayloadsBeforeStop rest

/-- The sublist of non-empty payloads (the `if audio_payload:` truthiness
filter applied by the media branch). -/
def nonEmptyPayloads : List String → List String
  | [] => []
  | p :: rest => if p ≠ "" then p :: nonEmptyPayloads rest else nonEmptyPayloads rest

/-- Checks that in a model-command trace every tool-result
`conversation.item.create` is immediately followed by `response.create`
(so a result/resume pair is never interleaved with another pending tool
result). -/
def toolResultPaired : List ModelCmd → Bool
  | [] => true
  | ModelCmd.conversationItemCreate _ _ :: rest =>
      match rest with
      | ModelCmd.responseCreate :: rest2 => toolResultPaired rest2
      | _ => false
  | _ :: rest => toolResultPaired rest

/-- Fixed collaborator oracle used by concrete witness inputs: the order
fetch and inventory check succeed; transfer and ticket creation fail. -/
def db0 : DbOracle :=
  ⟨false, fun _ _ _ _ => Except.error "db down", false,
   fun _ _ _ _ _ => Except.error "db down"⟩

/-- C5: for every function name not among the four declared tools and for
all argument mappings, tool dispatch returns the payload whose `error`
field is `Unknown function: <name>`; `execute_tool` is a total function,
so no exception escapes the dispatcher. -/
theorem unknown_function_returns_error_payload (db : DbOracle) (name : String)
    (args : Payload) (sid : Option String)
    (h1 : name ≠ "lookup_order") (h2 : name ≠ "transfer_to_human")
    (h3 : name ≠ "check_product_availability") (h4 : name ≠ "create_ticket") :
    execute_tool db name args sid =
      [("error", JVal.s ("Unknown function: " ++ name)),
       ("message", JVal.s "I\x27m sorry, I couldn\x27t process that request.")] := by
  simp [execute_tool, h1, h2, h3, h4]

theorem unknown_function_returns_error_payload_witness :
    execute_tool db0 "foo" [] none =
      [("error", JVal.s ("Unknown function: " ++ "foo")),
       ("message", JVal.s "I\x27m sorry, I couldn\x27t process that request.")] :=
  unknown_function_returns_error_payload db0 "foo" [] none
    (by decide) (by decide) (by decide) (by decide)

/-- C8: dispatching `lookup_order` returns exactly what the persistence
collaborator's `get_order_details` produces: the fetched order record on
success, and the payload `error: Order not found` carrying the requested
`order_id` on failure. -/
theorem lookup_order_result_shape (db : DbOracle) (args : Payload) (sid : Option String) :
    execute_tool db "lookup_order" args sid =
      get_order_details db.orderFails (pyGet args "order_id") ∧
    (db.orderFails = false →
      execute_tool db "lookup_order" args sid = mock_order (pyGet args "order_id")) ∧
    (db.orderFails = true →
      execute_tool db "lookup_order" args sid =
        [("error", JVal.s "Order not found"), ("order_id", pyGet args "order_id")]) := by
  refine ⟨by simp [execute_tool], ?_, ?_⟩
  · intro h
    simp [execute_tool, get_order_details, h]
  · intro h
    simp [execute_tool, get_order_details, h]

theorem lookup_order_result_shape_witness :
    execute_tool db0 "lookup_order" [("order_id", JVal.s "ORD1")] none =
      mock_order (JVal.s "ORD1") :=
  (lookup_order_result_shape db0 [("order_id", JVal.s "ORD1")] none).2.1 rfl

/-- C9: a `conversation.item.created` event whose item has an empty
content list logs no transcript line (the first content fragment is never
accessed: `transcriptLine` returns `none` from its empty-list branch
without inspecting a head element, and the step is total, so no error is
raised), while the item is still passed to the persistence collaborator's
`log_conversation` (the call identifier being set). -/
theorem empty_content_skips_transcript_logging (db : DbOracle) (sh : Shared)
    (item : ConvItem) (h1 : item.content = []) (h2 : truthy sh.call_sid = true) :
    (handle_model_event db sh (OpenAIEvent.conversationItemCreated item)).transcriptLogs = [] ∧
    (handle_model_event db sh (OpenAIEvent.conversationItemCreated item)).dbCalls =
      [DbCall.logConversation sh.call_sid item] := by
  constructor
  · simp [handle_model_event, transcriptLine, h1]
  · simp [handle_model_event, h2]

theorem empty_content_skips_transcript_logging_witness :
    (handle_model_event db0 ⟨some "CA1", some "MZ1", true⟩
       (OpenAIEvent.conversationItemCreated ⟨"message", "user", []⟩)).transcriptLogs = [] ∧
    (handle_model_event db0 ⟨some "CA1", some "MZ1", true⟩
       (OpenAIEvent.conversationItemCreated ⟨"message", "user", []⟩)).dbCalls =
      [DbCall.logConversation (some "CA1") ⟨"message", "user", []⟩] :=
  empty_content_skips_transcript_logging db0 ⟨some "CA1", some "MZ1", true⟩
    ⟨"message", "user", []⟩ rfl rfl

/-- C10: a `response.audio.delta` event is forwarded to telephony as an
outbound media frame exactly when the stream identifier has been set (to a
non-empty identifier) by a telephony `start` frame and the delta payload
is non-empty; a delta arriving before the start frame, and an empty delta,
produces no outbound frame. -/
theorem audio_delta_forwarding_iff (db : DbOracle) (sh : Shared) (delta : String) :
    ((handle_model_event db sh (OpenAIEvent.responseAudioDelta delta)).twilioOut ≠ [] ↔
       ((∃ s, sh.stream_sid = some s ∧ s ≠ "") ∧ delta ≠ "")) ∧
    (∀ s, sh.stream_sid = some s → s ≠ "" → delta ≠ "" →
       (handle_model_event db sh (OpenAIEvent.responseAudioDelta delta)).twilioOut =
         [⟨s, delta⟩]) := by
  constructor
  · cases hss : sh.stream_sid with
    | none => simp [handle_model_event, hss]
    | some s =>
        by_cases hs : s = ""
        · subst hs
          simp [handle_model_event, hss]
        · by_cases hd : delta = ""
          · subst hd
            simp [handle_model_event, hss, hs]
          · simp [handle_model_event, hss, hs, hd]
  · intro s hss hs hd
    simp [handle_model_event, hss, hs, hd]

theorem audio_delta_forwarding_iff_witness :
    (handle_model_event db0 ⟨some "CA1", some "MZ1", true⟩
       (OpenAIEvent.responseAudioDelta "abc")).twilioOut = [⟨"MZ1", "abc"⟩] :=
  (audio_delta_forwarding_iff db0 ⟨some "CA1", some "MZ1", true⟩ "abc").2 "MZ1" rfl
    (by decide) (by decide)

/-- C6: a `function_call_arguments.done` event whose arguments string is
not parseable sends back the `Invalid arguments` error payload followed by
the resume directive, and the pump continues: the outputs of all
subsequent events are produced unchanged after it. -/
theorem invalid_arguments_error_and_continue (db : DbOracle) (sh : Shared)
    (name call_id raw : String) (rest : List (Shared × OpenAIEvent)) :
    (openai_to_twilio db
        ((sh, OpenAIEvent.functionCallArgumentsDone name call_id
            (RawArgs.malformed raw)) :: rest)).modelOut =
      ModelCmd.conversationItemCreate call_id [("error", JVal.s "Invalid arguments")] ::
        ModelCmd.responseCreate :: (openai_to_twilio db rest).modelOut ∧
    (openai_to_twilio db
        ((sh, OpenAIEvent.functionCallArgumentsDone name call_id
            (RawArgs.malformed raw)) :: rest)).twilioOut =
      (openai_to_twilio db rest).twilioOut ∧
    (openai_to_twilio db
        ((sh, OpenAIEvent.functionCallArgumentsDone name call_id
            (RawArgs.malformed raw)) :: rest)).dbCalls =
      (openai_to_twilio db rest).dbCalls :=
  ⟨rfl, rfl, rfl⟩

/-- C1 counterexample: a `media` frame carrying the empty payload arrives
before the `stop` frame, yet no `input_audio_buffer.append` command is
sent (the `if audio_payload:` truthiness guard of app.py line 229 drops
it), so not every payload received before a stop is forwarded. -/
theorem media_empty_payload_dropped :
    mediaPayloadsBeforeStop [TwilioFrame.media (some ""), TwilioFrame.stop] = [""] ∧
    (twilio_to_openai "sess_1" ⟨none, none, false, []⟩
       [TwilioFrame.media (some ""), TwilioFrame.stop]).modelOut = [] :=
  ⟨rfl, rfl⟩

/-- C1 amended: in a frame sequence with no decode failures, the commands
sent to the model are exactly the non-empty payloads of the `media` frames
that arrive before the first `stop`, each forwarded exactly once as an
`input_audio_buffer.append`, in arrival order; media frames whose payload
is absent or empty are dropped. -/
theorem media_payloads_forwarded_in_order (session_id : String) (st : TwilioState)
    (frames : List TwilioFrame) (h : TwilioFrame.malformed ∉ frames) :
    (twilio_to_openai session_id st frames).modelOut =
      (nonEmptyPayloads (mediaPayloadsBeforeStop frames)).map ModelCmd.inputAudioAppend := by
  revert st h
  induction frames with
  | nil => intro st h; rfl
  | cons f rest ih =>
      intro st h
      have hrest : TwilioFrame.malformed ∉ rest := fun hr => h (List.mem_cons_of_mem _ hr)
      cases f with
      | start cs ss fn =>
          simp only [twilio_to_openai, mediaPayloadsBeforeStop]
          exact ih _ hrest
      | media p =>
          cases p with
          | none =>
              simp only [twilio_to_openai, mediaPayloadsBeforeStop]
              exact ih _ hrest
          | some s =>
              simp only [twilio_to_openai, mediaPayloadsBeforeStop, nonEmptyPayloads]
              by_cases hs : s = ""
              · rw [if_neg (by simp [hs]), if_neg (by simp [hs])]
                exact ih _ hrest
              · rw [if_pos hs, if_pos hs]
                exact congrArg (List.cons (ModelCmd.inputAudioAppend s)) (ih _ hrest)
      | mark n =>
          simp only [twilio_to_openai, mediaPayloadsBeforeStop]
          exact ih _ hrest
      | stop => rfl
      | unrecognizedEvent e =>
          simp only [twilio_to_openai, mediaPayloadsBeforeStop]
          exact ih _ hrest
      | malformed => exact absurd (List.mem_cons_self _ _) h

theorem media_payloads_forwarded_in_order_witness :
    (twilio_to_openai "sess_1" ⟨none, none, false, []⟩
       [TwilioFrame.start (some "CA1") (some "MZ1") "+919876543210",
        TwilioFrame.media (some "AAA="), TwilioFrame.media (some "BBB="),
        TwilioFrame.stop]).modelOut =
      [ModelCmd.inputAudioAppend "AAA=", ModelCmd.inputAudioAppend "BBB="] := by
  have h := media_payloads_forwarded_in_order "sess_1" ⟨none, none, false, []⟩
    [TwilioFrame.start (some "CA1") (some "MZ1") "+919876543210",
     TwilioFrame.media (some "AAA="), TwilioFrame.media (some "BBB="),
     TwilioFrame.stop] (by decide)
  simpa [mediaPayloadsBeforeStop, nonEmptyPayloads] using h

/-- C7 counterexample: after a frame on which decoding raises, the
following well-formed `media` frame is never processed and the pump
reports the errored termination, so the telephony-to-model pump does not
continue past a malformed frame. -/
theorem decode_failure_stops_pump :
    (twilio_to_openai "sess_1" ⟨none, none, false, []⟩
       [TwilioFrame.malformed, TwilioFrame.media (some "AAA=")]).modelOut = [] ∧
    (twilio_to_openai "sess_1" ⟨none, none, false, []⟩
       [TwilioFrame.malformed, TwilioFrame.media (some "AAA=")]).ended = PumpEnd.errored :=
  ⟨rfl, rfl⟩

/-- C7 amended: a frame that fails to decode terminates the
telephony-to-model pump: the raised error is caught by the pump-level
handler (so it is contained and does not escape the pump), no further
frame is processed, and the pump ends in the errored state with no
additional output. -/
theorem decode_failure_terminates_pump_contained (session_id : String)
    (st : TwilioState) (rest : List TwilioFrame) :
    twilio_to_openai session_id st (TwilioFrame.malformed :: rest) =
      ⟨st, [], [], PumpEnd.errored⟩ := rfl

/-- C3 counterexample: a second `start` frame for the already-registered
identifier `CA1` silently replaces the first session entry (the registry
now holds the second stream identifier `MZ2`) and the pump completes
without any error, so registration does not fail with `DuplicateSession`
and does not preserve the first entry. -/
theorem second_start_silently_replaces :
    (twilio_to_openai "sess_1" ⟨none, none, false, []⟩
       [TwilioFrame.start (some "CA1") (some "MZ1") "+919876543210",
        TwilioFrame.start (some "CA1") (some "MZ2") "+919876543210"]).state.registry =
      [(some "CA1", ⟨some "CA1", some "MZ2", "sess_1", "+919876543210"⟩)] ∧
    (twilio_to_openai "sess_1" ⟨none, none, false, []⟩
       [TwilioFrame.start (some "CA1") (some "MZ1") "+919876543210",
        TwilioFrame.start (some "CA1") (some "MZ2") "+919876543210"]).ended =
      PumpEnd.exhausted :=
  ⟨rfl, rfl⟩

theorem mem_keys_dictInsert {a k : Option String} {v : SessionData} {reg : Registry}
    (h : a ∈ (dictInsert k v reg).map Prod.fst) :
    a = k ∨ a ∈ reg.map Prod.fst := by
  induction reg with
  | nil =>
      simp [dictInsert] at h
      exact Or.inl h
  | cons kv rest ih =>
      by_cases hk : kv.1 = k
      · rw [show dictInsert k v (kv :: rest) = (k, v) :: rest from by
            simp [dictInsert, hk]] at h
        simp only [List.map_cons, List.mem_cons] at h
        rcases h with h | h
        · exact Or.inl h
        · exact Or.inr (by simp [List.mem_cons, h])
      · rw [show dictInsert k v (kv :: rest) = kv :: dictInsert k v rest from by
            simp [dictInsert, hk]] at h
        simp only [List.map_cons, List.mem_cons] at h
        rcases h with h | h
        · exact Or.inr (by simp [List.mem_cons, h])
        · rcases ih h with h2 | h2
          · exact Or.inl h2
          · exact Or.inr (by simp [List.mem_cons, h2])

theorem nodup_keys_dictInsert {k : Option String} {v : SessionData} {reg : Registry}
    (h : (reg.map Prod.fst).Nodup) :
    ((dictInsert k v reg).map Prod.fst).Nodup := by
  induction reg with
  | nil => simp [dictInsert]
  | cons kv rest ih =>
      rw [List.map_cons, List.nodup_cons] at h
      by_cases hk : kv.1 = k
      · rw [show dictInsert k v (kv :: rest) = (k, v) :: rest from by simp [dictInsert, hk]]
        rw [List.map_cons, List.nodup_cons]
        exact ⟨hk ▸ h.1, h.2⟩
      · rw [show dictInsert k v (kv :: rest) = kv :: dictInsert k v rest from by
            simp [dictInsert, hk]]
        rw [List.map_cons, List.nodup_cons]
        refine ⟨fun hmem => ?_, ih h.2⟩
        rcases mem_keys_dictInsert hmem with h2 | h2
        · exact hk h2
        · exact h.1 h2

/-- C3 amended: the registry keeps at most one CallSession per call
identifier at any instant (key uniqueness is preserved by every frame
sequence), but a `start` frame whose identifier is already registered
silently replaces the existing entry rather than failing with a
`DuplicateSession` error. -/
theorem registry_keys_unique_invariant (session_id : String) (st : TwilioState)
    (frames : List TwilioFrame) (h : (st.registry.map Prod.fst).Nodup) :
    (((twilio_to_openai session_id st frames).state.registry).map Prod.fst).Nodup := by
  revert st h
  induction frames with
  | nil => intro st h; exact h
  | cons f rest ih =>
      intro st h
      cases f with
      | start cs ss fn =>
          simp only [twilio_to_openai]
          exact ih _ (nodup_keys_dictInsert h)
      | media p =>
          cases p with
          | none => exact ih _ h
          | some s =>
              simp only [twilio_to_openai]
              by_cases hs : s = ""
              · rw [if_neg (by simp [hs])]
                exact ih _ h
              · rw [if_pos hs]
                exact ih _ h
      | mark n => exact ih _ h
      | stop => exact h
      | unrecognizedEvent e => exact ih _ h
      | malformed => exact h

theorem registry_keys_unique_invariant_witness :
    (((twilio_to_openai "sess_1" ⟨none, none, false, []⟩
        [TwilioFrame.start (some "CA1") (some "MZ1") "+919876543210",
         TwilioFrame.start (some "CA1") (some "MZ2") "+919876543210"]).state.registry).map
       Prod.fst).Nodup :=
  registry_keys_unique_invariant "sess_1" ⟨none, none, false, []⟩
    [TwilioFrame.start (some "CA1") (some "MZ1") "+919876543210",
     TwilioFrame.start (some "CA1") (some "MZ2") "+919876543210"] (by simp)

theorem append_modelOut (a b : OpenAIRun) :
    (a.append b).modelOut = a.modelOut ++ b.modelOut := rfl

theorem toolResultPaired_pair (c : String) (r : Payload) (l : List ModelCmd) :
    toolResultPaired
        (ModelCmd.conversationItemCreate c r :: ModelCmd.responseCreate :: l) =
      toolResultPaired l := rfl

theorem handle_model_event_modelOut_shape (db : DbOracle) (sh : Shared)
    (ev : OpenAIEvent) :
    (handle_model_event db sh ev).modelOut = [] ∨
    ∃ c r, (handle_model_event db sh ev).modelOut =
      [ModelCmd.conversationItemCreate c r, ModelCmd.responseCreate] := by
  cases ev with
  | responseAudioDelta delta =>
      left
      cases hss : sh.stream_sid with
      | none => simp [handle_model_event, hss]
      | some s =>
          simp only [handle_model_event, hss]
          split <;> rfl
  | responseAudioDone => exact Or.inl rfl
  | conversationItemCreated item => exact Or.inl rfl
  | functionCallArgumentsDone name cid args =>
      right
      cases args with
      | parsed a => exact ⟨cid, _, rfl⟩
      | malformed s => exact ⟨cid, _, rfl⟩
  | responseDone => exact Or.inl rfl
  | errorEvent => exact Or.inl rfl
  | sessionUpdated => exact Or.inl rfl
  | unrecognized => exact Or.inl rfl

/-- C4: in every run of the model-to-telephony pump, a tool result
(`conversation.item.create` carrying the `function_call_output`) is
immediately followed by the `response.create` resume directive, with
nothing — in particular no second tool result — between them; and for
every completed tool-call event the emitted pair is keyed by that event's
tool-call identifier. -/
theorem tool_result_immediately_followed_by_resume (db : DbOracle)
    (events : List (Shared × OpenAIEvent)) :
    toolResultPaired (openai_to_twilio db events).modelOut = true ∧
    ∀ sh name call_id args, ∃ result,
      (handle_model_event db sh
          (OpenAIEvent.functionCallArgumentsDone name call_id args)).modelOut =
        [ModelCmd.conversationItemCreate call_id result, ModelCmd.responseCreate] := by
  constructor
  · induction events with
    | nil => rfl
    | cons p rest ih =>
        obtain ⟨sh, ev⟩ := p
        rw [show openai_to_twilio db ((sh, ev) :: rest) =
              (handle_model_event db sh ev).append (openai_to_twilio db rest) from rfl,
            append_modelOut]
        rcases handle_model_event_modelOut_shape db sh ev with h | ⟨c, r, h⟩
        · rw [h]
          simpa using ih
        · rw [h]
          simpa [toolResultPaired_pair] using ih
  · intro sh name call_id args
    cases args with
    | parsed a => exact ⟨_, rfl⟩
    | malformed s => exact ⟨_, rfl⟩

theorem dictLookup_dictRemove (k : Option String) (reg : Registry) :
    dictLookup k (dictRemove k reg) = none := by
  induction reg with
  | nil => rfl
  | cons kv rest ih =>
      by_cases hk : kv.1 = k
      · simpa [dictRemove, hk] using ih
      · simp [dictRemove, dictLookup, hk, ih]

theorem dictLookup_cleanup (k : Option String) (reg : Registry) :
    dictLookup k (cleanup_session k reg) = none := by
  unfold cleanup_session
  cases hl : dictLookup k reg with
  | none => simp [hl]
  | some v => simp [hl, dictLookup_dictRemove]

/-- C2: for every frame sequence and model event trace (covering normal
stop, stream exhaustion or disconnect, and decode error in the telephony
pump, and any behavior of the model pump), once a call identifier has been
established the `finally` block invokes `cleanup_session` exactly once,
and afterwards that identifier is absent from the session registry. -/
theorem cleanup_runs_once_registry_cleared (session_id : String) (reg0 : Registry)
    (frames : List TwilioFrame) (db : DbOracle) (events : List (Shared × OpenAIEvent))
    (h : truthy (twilio_to_openai session_id
          ⟨none, none, false, reg0⟩ frames).state.call_sid = true) :
    (media_stream_handler session_id reg0 frames db events).cleanupCalls = 1 ∧
    dictLookup
      (twilio_to_openai session_id ⟨none, none, false, reg0⟩ frames).state.call_sid
      (media_stream_handler session_id reg0 frames db events).registry = none := by
  constructor
  · simp [media_stream_handler, handlerFinally, h]
  · simp [media_stream_handler, handlerFinally, h, dictLookup_cleanup]

theorem cleanup_runs_once_registry_cleared_witness :
    (media_stream_handler "sess_1" []
       [TwilioFrame.start (some "CA1") (some "MZ1") "+919876543210", TwilioFrame.stop]
       db0 []).cleanupCalls = 1 ∧
    dictLookup (some "CA1")
      (media_stream_handler "sess_1" []
        [TwilioFrame.start (some "CA1") (some "MZ1") "+919876543210", TwilioFrame.stop]
        db0 []).registry = none :=
  cleanup_runs_once_registry_cleared "sess_1" []
    [TwilioFrame.start (some "CA1") (some "MZ1") "+919876543210", TwilioFrame.stop]
    db0 [] rfl

end VoiceAgent
